import Mathlib

/-!
Shallow embedding of the credential lifecycle subsystem of the
`learn_server` repository (src/src/main.rs): the validation rules derived
on `RegisterInfo` and `LoginInfo`, the Argon2 hashing/verification calls
made by `register_user` and `login_user`, the `ServerError` taxonomy and
its `into_response` mapping, and the two request handlers themselves with
the storage collaborator modelled as an in-memory list of user rows.

The Argon2 digest function itself lives in the external `argon2` crate,
so every definition that needs it takes an arbitrary digest function
`d : String → String → Nat` (digest of a password and a salt) as a
parameter; the encoded PHC credential string is modelled by its parse
status under `PasswordHash::new`: either a well-formed hash carrying its
salt and digest, or an opaque string that fails to parse.
-/

namespace LearnServer

/-- A stored credential string, modelled by its parse status under
`PasswordHash::new`: `hashed salt digest` stands for a well-formed PHC
encoded string embedding that salt and digest, `plain s` for any string
that does not parse as one (in particular a legacy plaintext password). -/
inductive StoredCred where
  | plain (s : String)
  | hashed (salt : String) (digest : Nat)
deriving DecidableEq

/-- Rendering of a stored credential back to the string actually held in
the `password` column: a parsed hash renders as its PHC encoded string. -/
def StoredCred.render : StoredCred → String
  | .plain s => s
  | .hashed salt digest =>
      "$argon2id$v=19$m=19456,t=2,p=1$" ++ salt ++ "$" ++ toString digest

/-- The `users` table row (struct `User` in src/src/main.rs, lines 24-33);
`Uuid` columns are modelled as `Nat`. -/
structure User where
  id : Nat
  username : String
  primary_email_address : String
  organization_id : Option Nat
  team_id : Option Nat
  group_id : Option Nat
  password : StoredCred
deriving DecidableEq

/-- `RegisterInfo` (src/src/main.rs, lines 79-92). -/
structure RegisterInfo where
  username : String
  email : String
  password : String
  confirm_password : String
deriving DecidableEq

/-- `LoginInfo` (src/src/main.rs, lines 94-101). -/
structure LoginInfo where
  username : String
  password : String
deriving DecidableEq

/-- The validation rules that appear in the `#[validate(...)]` attributes. -/
inductive Rule where
  | length (min max : Option Nat)
  | email
  | regexUppercase
  | mustMatch (other : String)
deriving DecidableEq

/-- One violation recorded by the validator: the field it is attached to
and the rule that failed. -/
structure Violation where
  field : String
  rule : Rule
deriving DecidableEq

/-- `UPPERCASE_RE = ".*[A-Z].*"` (src/src/main.rs, lines 22-23): the regex
`is_match` succeeds exactly when the string contains an ASCII uppercase
letter. -/
def hasUppercase (s : String) : Bool :=
  s.data.any (fun c => decide ('A' ≤ c) && decide (c ≤ 'Z'))

/-- Splits a character list at its first `@`, if any. -/
def splitAtSign : List Char → Option (List Char × List Char)
  | [] => none
  | c :: rest =>
      if c = '@' then some ([], rest)
      else
        match splitAtSign rest with
        | some (l, r) => some (c :: l, r)
        | none => none

/-- Modelled from the spec: the `#[validate(email())]` check comes from the
external `validator` crate, whose code is not under src/; the spec
describes it as "a syntactic email check (local@domain with at least one
dot in the domain); not a full RFC validator". -/
def emailValid (s : String) : Bool :=
  match splitAtSign s.data with
  | some (loc, dom) => !loc.isEmpty && !dom.isEmpty && dom.contains '.' && !dom.contains '@'
  | none => false

/-- The derived `RegisterInfo::validate` (src/src/main.rs, lines 79-92):
each `#[validate(...)]` attribute is checked unconditionally, in
declaration order, and the violations are aggregated. String length is
the number of Unicode scalar values, as in the `validator` crate. -/
def validateRegisterInfo (r : RegisterInfo) : List Violation :=
  (if 3 ≤ r.username.length ∧ r.username.length ≤ 30 then []
   else [⟨"username", .length (some 3) (some 30)⟩])
  ++ (if emailValid r.email = true then [] else [⟨"email", .email⟩])
  ++ (if r.email.length ≤ 50 then [] else [⟨"email", .length none (some 50)⟩])
  ++ (if 6 ≤ r.password.length then [] else [⟨"password", .length (some 6) none⟩])
  ++ (if hasUppercase r.password = true then [] else [⟨"password", .regexUppercase⟩])
  ++ (if r.password = r.confirm_password then []
      else [⟨"password", .mustMatch "confirm_password"⟩])
  ++ (if r.confirm_password = r.password then []
      else [⟨"confirm_password", .mustMatch "password"⟩])

/-- The derived `LoginInfo::validate` (src/src/main.rs, lines 94-101). -/
def validateLoginInfo (i : LoginInfo) : List Violation :=
  (if 3 ≤ i.username.length ∧ i.username.length ≤ 30 then []
   else [⟨"username", .length (some 3) (some 30)⟩])
  ++ (if 6 ≤ i.password.length then [] else [⟨"password", .length (some 6) none⟩])
  ++ (if hasUppercase i.password = true then [] else [⟨"password", .regexUppercase⟩])

/-- The failures of the `password_hash` crate observed by `login_user`:
`phcParse` lumps the parse failures of `PasswordHash::new`, `password` is
`password_hash::Error::Password` returned by `verify_password` on digest
mismatch. -/
inductive PwError where
  | phcParse
  | password
deriving DecidableEq

/-- Display text of the `password_hash` errors (`Error::Password` prints
"invalid password"; parse failures print a PHC-format diagnostic). -/
def pwErrorMessage : PwError → String
  | .phcParse => "invalid PHC string"
  | .password => "invalid password"

/-- `ARGON2.hash_password(...).to_string()` as called by `register_user`
(src/src/main.rs, lines 274-277): hashing a password with a salt yields a
well-formed encoded credential embedding that salt and the digest. -/
def hash_password (d : String → String → Nat) (password salt : String) : StoredCred :=
  .hashed salt (d password salt)

/-- `PasswordHash::new(&search_user.password)` (src/src/main.rs, line 311):
parsing the stored credential string, failing on a malformed one. -/
def passwordHashNew : StoredCred → Except PwError (String × Nat)
  | .plain _ => .error .phcParse
  | .hashed salt digest => .ok (salt, digest)

/-- `ARGON2.verify_password(pw, &hash)` (src/src/main.rs, line 312):
recompute the digest with the embedded salt and compare; mismatch is the
error `Error::Password`, not a boolean. -/
def verify_password (d : String → String → Nat) (pw : String)
    (h : String × Nat) : Except PwError Unit :=
  if d pw h.1 = h.2 then .ok () else .error .password

/-- The two-line verification phase of `login_user`
(src/src/main.rs, lines 311-312): parse the stored string, then verify. -/
def loginVerifyStep (d : String → String → Nat) (stored : StoredCred)
    (pw : String) : Except PwError Unit :=
  match passwordHashNew stored with
  | .error e => .error e
  | .ok h => verify_password d pw h

/-- The `ServerError` taxonomy (src/src/main.rs, lines 35-45). Each
variant is `#[error(transparent)]`, so its display text is the wrapped
inner error's own text; `databaseError` therefore carries the raw driver
message string, and `jsonRejectionError` the rejection's status and body
text. -/
inductive ServerError where
  | passwordHashError (e : PwError)
  | databaseError (msg : String)
  | validationError (violations : List Violation)
  | jsonRejectionError (status : Nat) (body : String)
deriving DecidableEq

/-- Display of the derived `ValidationErrors`: one line per violation
(the exact text is irrelevant to the claims; only its dependence on the
violations matters). -/
def validationErrorsMessage (vs : List Violation) : String :=
  "Validation Error: " ++ toString vs.length ++ " violations"

/-- `self.to_string()` under `#[error(transparent)]`: the inner error's
display text. -/
def serverErrorMessage : ServerError → String
  | .passwordHashError e => pwErrorMessage e
  | .databaseError m => m
  | .validationError vs => validationErrorsMessage vs
  | .jsonRejectionError _ body => body

/-- The status component of `ServerError::into_response`
(src/src/main.rs, lines 51-63): every arm except the JSON rejection maps
to `StatusCode::BAD_REQUEST` (400). -/
def serverErrorStatus : ServerError → Nat
  | .passwordHashError _ => 400
  | .databaseError _ => 400
  | .validationError _ => 400
  | .jsonRejectionError st _ => st

/-- `ServerError::into_response` (src/src/main.rs, lines 51-63): the
response is the status paired with the message serialized into the
`ErrorResponse` body. -/
def intoResponse (e : ServerError) : Nat × String :=
  (serverErrorStatus e, serverErrorMessage e)

/-- `400 ≤ n < 500`: the client-error status class. -/
def isClientError (n : Nat) : Bool :=
  decide (400 ≤ n) && decide (n < 500)

/-- Observable side effects of a handler, in order: an Argon2 hash
computation, an INSERT, a SELECT, an Argon2 verification. -/
inductive Event where
  | hashInvoked
  | storageInsert
  | storageQuery
  | verifyInvoked
deriving DecidableEq

/-- The message of the `sqlx::Error` raised by a uniqueness-constraint
violation on INSERT (raw driver text, abbreviated). -/
def duplicateKeyMessage : String :=
  "duplicate key value violates unique constraint"

/-- The message of `sqlx::Error::RowNotFound` raised by `fetch_one` when
the SELECT returns no row. -/
def rowNotFoundMessage : String :=
  "no rows returned by a query that expected to return at least one row"

/-- The INSERT of `register_user` (src/src/main.rs, lines 279-291) against
the storage collaborator, modelled as a list of rows with the `users`
table's uniqueness constraints on username and email: a duplicate makes
the driver fail, surfaced through `?` as `ServerError::DatabaseError`. -/
def insertUser (db : List User) (username email : String) (cred : StoredCred) :
    Except ServerError (List User) :=
  if db.any (fun u => u.username = username ∨ u.primary_email_address = email) then
    .error (.databaseError duplicateKeyMessage)
  else
    .ok (db ++ [⟨db.length, username, email, none, none, none, cred⟩])

/-- The SELECT of `login_user` (src/src/main.rs, lines 300-310):
`WHERE username=$1` with `fetch_one`, i.e. the first matching row. -/
def fetchUserByUsername (db : List User) (username : String) : Option User :=
  db.find? (fun u => u.username == username)

/-- `register_user` (src/src/main.rs, lines 270-293). The `ValidatedJson`
extractor (lines 105-116) runs `validate()` before the handler body, so
on any violation the handler returns the `ValidationError` rejection and
nothing else runs; otherwise the handler hashes the password with a fresh
salt and INSERTs. The returned event list records, in order, the side
effects performed. -/
def register_user (d : String → String → Nat) (salt : String)
    (db : List User) (info : RegisterInfo) :
    Except ServerError (List User) × List Event :=
  if validateRegisterInfo info = [] then
    match insertUser db info.username info.email (hash_password d info.password salt) with
    | .ok db2 => (.ok db2, [.hashInvoked, .storageInsert])
    | .error e => (.error e, [.hashInvoked, .storageInsert])
  else (.error (.validationError (validateRegisterInfo info)), [])

/-- `login_user` (src/src/main.rs, lines 295-314). Validation runs in the
`ValidatedJson` extractor (and a second, redundant `validate()` call on
line 299 returns the same result); then the SELECT, then the
verification phase, each failure propagated through `?`. -/
def login_user (d : String → String → Nat) (db : List User)
    (info : LoginInfo) : Except ServerError User × List Event :=
  if validateLoginInfo info = [] then
    match fetchUserByUsername db info.username with
    | none => (.error (.databaseError rowNotFoundMessage), [.storageQuery])
    | some u =>
      match loginVerifyStep d u.password info.password with
      | .ok _ => (.ok u, [.storageQuery, .verifyInvoked])
      | .error e => (.error (.passwordHashError e), [.storageQuery, .verifyInvoked])
  else (.error (.validationError (validateLoginInfo info)), [])

/-- Serialization of the `User` row for the success body of `login_user`
(`Json(search_user)`); `User` derives `Serialize` with no field skipped,
so all seven columns appear, the stored credential string included. -/
def serializeUser (u : User) : List (String × String) :=
  [("id", toString u.id),
   ("username", u.username),
   ("primary_email_address", u.primary_email_address),
   ("organization_id", toString u.organization_id),
   ("team_id", toString u.team_id),
   ("group_id", toString u.group_id),
   ("password", u.password.render)]

/-- Modelled from the spec: the Legacy Credential Migrator is described in
the spec (a startup sweep upgrading plaintext credentials) but no such
code exists under src/. Its structural already-hashed marker ("a
recognized algorithm prefix" in the encoded string) corresponds here to
the credential parsing as a well-formed hash. -/
def isHashedMarker : StoredCred → Bool
  | .hashed _ _ => true
  | .plain _ => false

/-- Modelled from the spec: one step of the migration sweep — an
already-hashed record is skipped (zero writes), a plaintext record is
hashed with a fresh salt and written back (one write). -/
def migrateRecord (d : String → String → Nat) (salt : String)
    (c : StoredCred) : StoredCred × Nat :=
  if isHashedMarker c = true then (c, 0)
  else
    match c with
    | .plain p => (hash_password d p salt, 1)
    | .hashed s g => (.hashed s g, 0)

/-- Modelled from the spec: the body of `migrate_all`, sweeping the store
in order; the index feeds the fresh-salt source, and the write counts are
summed. -/
def migrateAllAux (d : String → String → Nat) (salts : Nat → String) :
    Nat → List StoredCred → List StoredCred × Nat
  | _, [] => ([], 0)
  | i, c :: rest =>
      let r := migrateRecord d (salts i) c
      let rr := migrateAllAux d salts (i + 1) rest
      (r.1 :: rr.1, r.2 + rr.2)

/-- Modelled from the spec: `migrate_all(credential_store)` — for every
stored credential, hash it in place if it is not already in hashed state;
returns the new store and the number of writes performed. -/
def migrate_all (d : String → String → Nat) (salts : Nat → String)
    (store : List StoredCred) : List StoredCred × Nat :=
  migrateAllAux d salts 0 store

/-- Modelled from the spec: the "contains at least one digit" password
policy the spec lists among observed policies; no digit rule is declared
on `RegisterInfo` in the source, and this predicate exists only to state
that claim. -/
def hasDigit (s : String) : Bool :=
  s.data.any (fun c => decide ('0' ≤ c) && decide (c ≤ '9'))

/-- A concrete digest function standing in for the Argon2 digest in
witnesses (the claims hold for every digest function). -/
def dLen : String → String → Nat :=
  fun p s => p.length * 100 + s.length

/-- A store already holding the row of user "alice". -/
def dbAlice : List User :=
  [⟨0, "alice", "alice@example.com", none, none, none, .hashed "s0" 42⟩]

/-- A well-formed registration payload whose username duplicates the row
in `dbAlice`. -/
def regAlice : RegisterInfo :=
  ⟨"alice", "alice2@example.com", "Abc123", "Abc123"⟩

/-- A store holding the row of user "carol", whose credential is the hash
of "Abc123" under `dLen` with salt "ws" (`dLen "Abc123" "ws" = 602`). -/
def dbCarol : List User :=
  [⟨0, "carol", "carol@example.com", none, none, none, .hashed "ws" 602⟩]

/-- Membership in a conditional singleton block of the validators. -/
theorem mem_if_nil {α : Type} (p : Prop) [Decidable p] (a w : α) :
    (a ∈ (if p then ([] : List α) else [w])) ↔ ¬p ∧ a = w := by
  by_cases hp : p
  · simp [hp]
  · simp [hp]

/-- Every record in the output of the migration sweep carries the
hashed-state marker. -/
theorem migrateAllAux_all_hashed (d : String → String → Nat)
    (salts : Nat → String) :
    ∀ (i : Nat) (store : List StoredCred),
      ∀ c ∈ (migrateAllAux d salts i store).1, isHashedMarker c = true := by
  intro i store
  induction store generalizing i with
  | nil => intro c hc; simp [migrateAllAux] at hc
  | cons hd tl ih =>
      intro c hc
      simp only [migrateAllAux, List.mem_cons] at hc
      rcases hc with hc | hc
      · subst hc
        cases hd with
        | plain p => simp [migrateRecord, isHashedMarker, hash_password]
        | hashed s g => simp [migrateRecord, isHashedMarker]
      · exact ih (i + 1) c hc

/-- A sweep over a store whose records all carry the hashed marker leaves
the store unchanged and performs zero writes. -/
theorem migrateAllAux_of_all_hashed (d : String → String → Nat)
    (salts : Nat → String) :
    ∀ (i : Nat) (store : List StoredCred),
      (∀ c ∈ store, isHashedMarker c = true) →
      migrateAllAux d salts i store = (store, 0) := by
  intro i store
  induction store generalizing i with
  | nil => intro _; simp [migrateAllAux]
  | cons hd tl ih =>
      intro hall
      have hhd : isHashedMarker hd = true := hall hd (List.mem_cons_self hd tl)
      have htl : ∀ c ∈ tl, isHashedMarker c = true :=
        fun c hc => hall c (List.mem_cons_of_mem hd hc)
      simp [migrateAllAux, migrateRecord, hhd, ih (i + 1) htl]

/-- C1: Round-trip of the hashing engine: hashing a plaintext with a fresh
salt as `register_user` does, then running `login_user`'s verification
phase (`PasswordHash::new` followed by `verify_password`) on the result,
succeeds for every plaintext, every salt and every digest function. -/
theorem hash_then_verify_succeeds (d : String → String → Nat)
    (pw salt : String) :
    loginVerifyStep d (hash_password d pw salt) pw = .ok () := by
  simp [loginVerifyStep, hash_password, passwordHashNew, verify_password]

/-- C8: the legacy credential migrator is idempotent: after a completed
run, a second run (with any fresh-salt source) performs zero writes,
leaves the stored state identical, and every verification result against
the store is unchanged. -/
theorem migrate_all_idempotent (d : String → String → Nat)
    (salts salts2 : Nat → String) (store : List StoredCred) :
    migrate_all d salts2 (migrate_all d salts store).1 =
      ((migrate_all d salts store).1, 0) ∧
    ∀ pw : String,
      (migrate_all d salts2 (migrate_all d salts store).1).1.map
          (fun c => loginVerifyStep d c pw) =
        (migrate_all d salts store).1.map (fun c => loginVerifyStep d c pw) := by
  have h1 := migrateAllAux_all_hashed d salts 0 store
  have h2 := migrateAllAux_of_all_hashed d salts2 0
    (migrateAllAux d salts 0 store).1 h1
  refine ⟨h2, ?_⟩
  intro pw
  have h3 : (migrate_all d salts2 (migrate_all d salts store).1).1 =
      (migrate_all d salts store).1 := by
    rw [show migrate_all d salts2 (migrate_all d salts store).1 =
      ((migrate_all d salts store).1, 0) from h2]
  rw [h3]

/-- C2 counterexample: the code's verification phase does not return a
boolean at all — a stored string that fails to decode aborts with a parse
error and a digest mismatch aborts with `Error::Password`, and the two
errors are distinct, so the caller can distinguish them. -/
theorem verify_failures_are_errors_cex :
    loginVerifyStep dLen (.plain "legacy-plaintext") "Abc123" =
      .error .phcParse ∧
    loginVerifyStep dLen (.hashed "salt" 0) "Abc123" = .error .password ∧
    PwError.phcParse ≠ PwError.password := by
  refine ⟨rfl, rfl, by decide⟩

/-- C2 amended: both verification failure modes surface as errors
(propagated by `?` into `ServerError::PasswordHashError`), not as a
boolean `false`: decoding failure yields the parse error, digest mismatch
yields `Error::Password`, and the two surfaced response messages differ,
so the caller can distinguish a wrong password from a corrupt record. -/
theorem verify_failure_error_modes (d : String → String → Nat)
    (s pw salt : String) (dg : Nat) (h : d pw salt ≠ dg) :
    loginVerifyStep d (.plain s) pw = .error .phcParse ∧
    loginVerifyStep d (.hashed salt dg) pw = .error .password ∧
    serverErrorMessage (.passwordHashError .phcParse) ≠
      serverErrorMessage (.passwordHashError .password) := by
  refine ⟨rfl, ?_, by decide⟩
  simp [loginVerifyStep, passwordHashNew, verify_password, h]

/-- C2 amended, witness at a concrete input. -/
theorem verify_failure_error_modes_witness :
    loginVerifyStep dLen (.plain "legacy") "Abc123" = .error .phcParse ∧
    loginVerifyStep dLen (.hashed "salt" 7) "Abc123" = .error .password ∧
    serverErrorMessage (.passwordHashError .phcParse) ≠
      serverErrorMessage (.passwordHashError .password) :=
  verify_failure_error_modes dLen "legacy" "Abc123" "salt" 7 (by decide)

/-- C5 counterexample: two distinct internal storage errors surface two
distinct response messages (the raw driver text), not one fixed message
per kind; only the status is fixed. -/
theorem db_error_message_not_fixed_cex :
    serverErrorMessage (.databaseError "connection reset by peer") ≠
      serverErrorMessage (.databaseError duplicateKeyMessage) ∧
    serverErrorStatus (.databaseError "connection reset by peer") =
      serverErrorStatus (.databaseError duplicateKeyMessage) := by
  refine ⟨by decide, rfl⟩

/-- C5 amended: the response mapper surfaces the wrapped internal error's
own display text verbatim as the response message (`#[error(transparent)]`
plus `self.to_string()`): for every database error the response is status
400 paired with the raw internal message, so the message is not a fixed
text determined by the kind. -/
theorem db_error_message_is_internal_text (m : String) :
    intoResponse (.databaseError m) = (400, m) := rfl

/-- C6: whenever the register payload and the login payload fail
validation, the respective handlers return the validation error and the
event trace is empty: no storage access, no hash computation and no
verification happen — validation runs first in both workflows. -/
theorem validation_precedes_storage_and_hash
    (d : String → String → Nat) (salt : String) (db db2 : List User)
    (rinfo : RegisterInfo) (linfo : LoginInfo)
    (hr : validateRegisterInfo rinfo ≠ [])
    (hl : validateLoginInfo linfo ≠ []) :
    register_user d salt db rinfo =
      (.error (.validationError (validateRegisterInfo rinfo)), []) ∧
    login_user d db2 linfo =
      (.error (.validationError (validateLoginInfo linfo)), []) := by
  constructor
  · simp [register_user, hr]
  · simp [login_user, hl]

/-- C6, witness: a register payload and a login payload whose passwords
are too short and lack an uppercase letter are rejected with no events. -/
theorem validation_precedes_storage_and_hash_witness :
    register_user dLen "s1" [] ⟨"alice", "alice@example.com", "abc", "abc"⟩ =
      (.error (.validationError
        (validateRegisterInfo ⟨"alice", "alice@example.com", "abc", "abc"⟩)), []) ∧
    login_user dLen [] ⟨"alice", "abc"⟩ =
      (.error (.validationError (validateLoginInfo ⟨"alice", "abc"⟩)), []) :=
  validation_precedes_storage_and_hash dLen "s1" [] []
    ⟨"alice", "alice@example.com", "abc", "abc"⟩ ⟨"alice", "abc"⟩
    (by decide) (by decide)

/-- C7: the must-match rule is declared symmetrically: the violation on
the `password` field and the violation on the `confirm_password` field
are each produced exactly when the two fields differ, and when they are
identical no must-match violation of any kind appears in the result. -/
theorem must_match_symmetric (r : RegisterInfo) :
    ((⟨"password", .mustMatch "confirm_password"⟩ : Violation) ∈
        validateRegisterInfo r ↔ r.password ≠ r.confirm_password) ∧
    ((⟨"confirm_password", .mustMatch "password"⟩ : Violation) ∈
        validateRegisterInfo r ↔ r.password ≠ r.confirm_password) ∧
    (r.password = r.confirm_password →
      ∀ v ∈ validateRegisterInfo r, ∀ f, v.rule ≠ Rule.mustMatch f) := by
  by_cases h : r.password = r.confirm_password
  · refine ⟨?_, ?_, ?_⟩
    · simp [validateRegisterInfo, mem_if_nil, h, List.mem_append]
    · simp [validateRegisterInfo, mem_if_nil, h, List.mem_append]
    · intro _ v hv f
      simp [validateRegisterInfo, mem_if_nil, h, List.mem_append] at hv
      rcases hv with hv | hv | hv | hv | hv <;> rcases hv with ⟨-, hv⟩ <;>
        subst hv <;> simp
  · refine ⟨?_, ?_, fun hc => absurd hc h⟩
    · simp [validateRegisterInfo, mem_if_nil, h, List.mem_append]
    · have hrev : ¬r.confirm_password = r.password := fun hc => h hc.symm
      simp [validateRegisterInfo, mem_if_nil, h, hrev, List.mem_append]

/-- C7, witness: on a mismatching payload both symmetric violations are
produced, and on a matching payload no must-match violation appears. -/
theorem must_match_symmetric_witness :
    ((⟨"password", .mustMatch "confirm_password"⟩ : Violation) ∈
        validateRegisterInfo ⟨"alice", "alice@example.com", "Abc123", "Abc124"⟩) ∧
    (∀ v ∈ validateRegisterInfo ⟨"alice", "alice@example.com", "Abc123", "Abc123"⟩,
      ∀ f, v.rule ≠ Rule.mustMatch f) :=
  ⟨((must_match_symmetric ⟨"alice", "alice@example.com", "Abc123", "Abc124"⟩).1).mpr
      (by decide),
   (must_match_symmetric ⟨"alice", "alice@example.com", "Abc123", "Abc123"⟩).2.2
      (by decide)⟩

/-- C10: a login payload whose password is shorter than 6 characters or
contains no uppercase letter always fails validation, so `login_user`
returns the validation error with an empty event trace: storage is never
queried and no verification runs. -/
theorem login_password_policy_blocks_lookup
    (d : String → String → Nat) (db : List User) (info : LoginInfo)
    (h : info.password.length < 6 ∨ hasUppercase info.password = false) :
    validateLoginInfo info ≠ [] ∧
    login_user d db info =
      (.error (.validationError (validateLoginInfo info)), []) := by
  have hne : validateLoginInfo info ≠ [] := by
    intro heq
    rw [validateLoginInfo] at heq
    rcases List.append_eq_nil.mp heq with ⟨h12, h3⟩
    rcases List.append_eq_nil.mp h12 with ⟨-, h2⟩
    rcases h with h | h
    · rw [if_neg (by omega)] at h2
      exact List.cons_ne_nil _ _ h2
    · rw [if_neg (by simp [h])] at h3
      exact List.cons_ne_nil _ _ h3
  exact ⟨hne, by simp [login_user, hne]⟩

/-- C10, witness: a five-character lowercase password is rejected before
any lookup. -/
theorem login_password_policy_blocks_lookup_witness :
    validateLoginInfo ⟨"bobby", "short"⟩ ≠ [] ∧
    login_user dLen dbCarol ⟨"bobby", "short"⟩ =
      (.error (.validationError (validateLoginInfo ⟨"bobby", "short"⟩)), []) :=
  login_password_policy_blocks_lookup dLen dbCarol ⟨"bobby", "short"⟩
    (Or.inl (by decide))

/-- C9: on every successful login, the returned value is exactly the
stored user row found by the username lookup, and its serialization for
the response body carries the `password` field holding the stored encoded
credential string. -/
theorem login_success_serializes_password
    (d : String → String → Nat) (db : List User) (info : LoginInfo)
    (u : User) (evs : List Event)
    (h : login_user d db info = (.ok u, evs)) :
    fetchUserByUsername db info.username = some u ∧
    ("password", u.password.render) ∈ serializeUser u := by
  refine ⟨?_, by simp [serializeUser]⟩
  rw [login_user] at h
  split at h
  · split at h
    · exact absurd (congrArg Prod.fst h) (by simp)
    · rename_i w hf
      split at h
      · have hw : w = u := by simpa using congrArg Prod.fst h
        rw [hf, hw]
      · exact absurd (congrArg Prod.fst h) (by simp)
  · exact absurd (congrArg Prod.fst h) (by simp)

/-- C9, witness: a successful login of "carol" returns the stored row and
its serialization carries the stored credential string in `password`. -/
theorem login_success_serializes_password_witness :
    fetchUserByUsername dbCarol "carol" =
      some ⟨0, "carol", "carol@example.com", none, none, none, .hashed "ws" 602⟩ ∧
    ("password", StoredCred.render (.hashed "ws" 602)) ∈
      serializeUser ⟨0, "carol", "carol@example.com", none, none, none,
        .hashed "ws" 602⟩ :=
  login_success_serializes_password dLen dbCarol ⟨"carol", "Abc123"⟩
    ⟨0, "carol", "carol@example.com", none, none, none, .hashed "ws" 602⟩
    [.storageQuery, .verifyInvoked] (by rfl)

/-- C3 counterexample: `RegisterInfo` declares no digit rule, so a
password lacking both an uppercase letter and a digit (all other rules
satisfied) produces exactly one violation, not two. -/
theorem no_digit_rule_two_violations_cex :
    hasUppercase "abcdef" = false ∧ hasDigit "abcdef" = false ∧
    (validateRegisterInfo
      ⟨"alice", "alice@example.com", "abcdef", "abcdef"⟩).length = 1 := by
  refine ⟨rfl, rfl, rfl⟩

/-- C3 amended: validation aggregates without short-circuiting over the
rules actually declared: a password violating both the minimum-length
rule and the uppercase rule (all other fields valid, confirmation
matching) yields exactly the two corresponding violations, in declaration
order. -/
theorem aggregation_two_violations (r : RegisterInfo)
    (hu : 3 ≤ r.username.length ∧ r.username.length ≤ 30)
    (he : emailValid r.email = true)
    (hel : r.email.length ≤ 50)
    (hlen : r.password.length < 6)
    (hup : hasUppercase r.password = false)
    (hc : r.password = r.confirm_password) :
    validateRegisterInfo r =
      [⟨"password", .length (some 6) none⟩, ⟨"password", .regexUppercase⟩] := by
  rw [validateRegisterInfo, if_pos hu, if_pos he, if_pos hel,
    if_neg (by omega), if_neg (by simp [hup]), if_pos hc, if_pos hc.symm]
  rfl

/-- C3 amended, witness: the password "abc" with matching confirmation
yields exactly the length violation followed by the uppercase violation. -/
theorem aggregation_two_violations_witness :
    validateRegisterInfo ⟨"alice", "alice@example.com", "abc", "abc"⟩ =
      [⟨"password", .length (some 6) none⟩, ⟨"password", .regexUppercase⟩] :=
  aggregation_two_violations ⟨"alice", "alice@example.com", "abc", "abc"⟩
    (by decide) (by decide) (by decide) (by decide) (by decide) (by decide)

/-- C4 counterexample: registering a duplicate username fails with the
database error (`StorageFailure`), but `into_response` classifies it as
status 400 Bad Request, which is not the conflict status 409. -/
theorem duplicate_register_status_cex :
    (register_user dLen "s1" dbAlice regAlice).1 =
      .error (.databaseError duplicateKeyMessage) ∧
    serverErrorStatus (.databaseError duplicateKeyMessage) = 400 ∧
    serverErrorStatus (.databaseError duplicateKeyMessage) ≠ 409 := by
  refine ⟨rfl, rfl, by decide⟩

/-- C4 amended: a registration whose username or email duplicates a
stored row fails with the database error kind and is mapped to status
400 Bad Request — in the client-error class, not a 5xx server error, and
the handler returns rather than panics. -/
theorem duplicate_register_bad_request
    (d : String → String → Nat) (salt : String) (db : List User)
    (info : RegisterInfo)
    (hv : validateRegisterInfo info = [])
    (hdup : db.any (fun u =>
      u.username = info.username ∨ u.primary_email_address = info.email) = true) :
    (register_user d salt db info).1 =
      .error (.databaseError duplicateKeyMessage) ∧
    serverErrorStatus (.databaseError duplicateKeyMessage) = 400 ∧
    isClientError (serverErrorStatus (.databaseError duplicateKeyMessage)) = true := by
  refine ⟨?_, rfl, rfl⟩
  have hdup2 : ∃ x ∈ db,
      x.username = info.username ∨ x.primary_email_address = info.email := by
    simpa using hdup
  simp [register_user, hv, insertUser, hdup2]

/-- C4 amended, witness: the duplicate registration of "alice". -/
theorem duplicate_register_bad_request_witness :
    (register_user dLen "s1" dbAlice regAlice).1 =
      .error (.databaseError duplicateKeyMessage) ∧
    serverErrorStatus (.databaseError duplicateKeyMessage) = 400 ∧
    isClientError (serverErrorStatus (.databaseError duplicateKeyMessage)) = true :=
  duplicate_register_bad_request dLen "s1" dbAlice regAlice
    (by decide) (by decide)

end LearnServer
